import Mathlib

/-!
Verification of the Reverba daily-task subsystem.

The backend that implements word selection, priority rebalancing, batch
building and task completion is not part of the checked-in sources; only its
API documentation, the frontend API clients and the frontend components are.
The backend operations below are therefore modelled from the specification
(each such definition says so in its doc comment).  The frontend logic
(MCQ grading, paragraph word-count gating in TaskDialog.tsx) is embedded
directly from the TypeScript source.
-/

namespace Reverba

/-- Word lifecycle state (`state` field of a Word). -/
inductive WordState
  | ACTIVE
  | MASTERED
deriving DecidableEq, Repr

/-- Per-word failure counters; MCQ failures are not tallied here. -/
structure FailureStats where
  meaning : Nat
  sentence : Nat
  paragraph : Nat
deriving DecidableEq, Repr

/-- Modelled from the spec: the Word data model (§3).  Timestamps are
abstracted as natural numbers; string attributes irrelevant to the claims
(display text, meaning, example) are omitted. -/
structure Word where
  id : Nat
  userId : Nat
  priority : Nat
  state : WordState
  masteryCount : Nat
  failureStats : FailureStats
  lastReviewedAt : Option Nat
  lastPromotedAt : Option Nat
deriving DecidableEq, Repr

/-- Task type, from src/frontend/src/api/tasks.ts. -/
inductive TaskType
  | MEANING
  | SENTENCE
  | MCQ
  | PARAGRAPH
deriving DecidableEq, Repr

/-- Task status, from src/frontend/src/api/tasks.ts. -/
inductive TaskStatus
  | PENDING
  | COMPLETED
deriving DecidableEq, Repr

/-- Task result, from src/frontend/src/api/tasks.ts. -/
inductive TaskResult
  | PASS
  | FAIL
deriving DecidableEq, Repr

/-- TaskItem shape, from src/frontend/src/api/tasks.ts (TaskItem interface). -/
structure TaskItem where
  taskId : Nat
  type : TaskType
  wordIds : List Nat
  status : TaskStatus
  result : Option TaskResult
  chatId : Option Nat
  question : Option String
  options : Option (List String)
  correctOption : Option Nat
  optionReasons : Option (List String)
deriving DecidableEq, Repr

/-- Modelled from the spec: the MCQ generation capability's return shape
(§6): a question, exactly 4 options, a 1-indexed correct option and exactly
4 option reasons. -/
structure MCQData where
  question : String
  options : List String
  correctOption : Nat
  optionReasons : List String
  options_len : options.length = 4
  correct_range : 1 ≤ correctOption ∧ correctOption ≤ 4
  reasons_len : optionReasons.length = 4

/-- Modelled from the spec: per-tier required word counts (§4.1, step 3):
1, 2, 3, 2 for priorities 1..4. -/
def requiredCount : Nat → Nat
  | 1 => 1
  | 2 => 2
  | 3 => 3
  | 4 => 2
  | _ => 0

/-- Modelled from the spec: the priority bucket of tier `t` — the ACTIVE
words with priority `t` (§4.1, steps 1–2). -/
def bucket (ws : List Word) (t : Nat) : List Word :=
  ws.filter (fun w => w.state == WordState.ACTIVE && w.priority == t)

/-- Modelled from the spec: tier selection — take up to the required count
from the tier's own bucket, in stable list order (§4.1, steps 3–4). -/
def selectTier (ws : List Word) (t : Nat) : List Word :=
  (bucket ws t).take (requiredCount t)

/-- Modelled from the spec: ids of all words selected for today, across the
four tiers (§4.1, step 5 input). -/
def selectedIds (ws : List Word) : List Nat :=
  (selectTier ws 1 ++ selectTier ws 2 ++ selectTier ws 3 ++ selectTier ws 4).map (·.id)

/-- Modelled from the spec: the Priority Rebalancer's action on one word
(§4.2): an ACTIVE word not selected today gets `priority := min (priority+1) 4`;
every other word is untouched. -/
def rebalanceWord (sel : List Nat) (w : Word) : Word :=
  if w.state = WordState.ACTIVE ∧ w.id ∉ sel then
    { w with priority := min (w.priority + 1) 4 }
  else w

/-- Modelled from the spec: the Priority Rebalancer over a word list (§4.2). -/
def rebalance (sel : List Nat) (ws : List Word) : List Word :=
  ws.map (rebalanceWord sel)

/-- Modelled from the spec: the tier a task type belongs to (§4.1 output
tagging: 1→MEANING, 2→SENTENCE, 3→MCQ, 4→PARAGRAPH). -/
def tierOf : TaskType → Nat
  | .MEANING => 1
  | .SENTENCE => 2
  | .MCQ => 3
  | .PARAGRAPH => 4

/-- Modelled from the spec: a MEANING/SENTENCE/PARAGRAPH TaskItem (§4.3):
status PENDING, null result, a chat id allocated for the task, all MCQ
fields null. -/
def mkTextTask (ty : TaskType) (w : Word) : TaskItem :=
  { taskId := w.id, type := ty, wordIds := [w.id], status := .PENDING,
    result := none, chatId := some w.id, question := none, options := none,
    correctOption := none, optionReasons := none }

/-- Modelled from the spec: an MCQ TaskItem (§4.3): status PENDING, null
result, generated question data stored verbatim, no chat id. -/
def mkMCQTask (w : Word) (d : MCQData) : TaskItem :=
  { taskId := w.id, type := .MCQ, wordIds := [w.id], status := .PENDING,
    result := none, chatId := none, question := some d.question,
    options := some d.options, correctOption := some d.correctOption,
    optionReasons := some d.optionReasons }

/-- Modelled from the spec: the Task Batch Builder (§4.3): one task per
selected word, appended in tier order 1→4; a tier-3 word whose MCQ
generation fails is skipped. -/
def buildBatch (gen : Word → Option MCQData) (ws : List Word) : List TaskItem :=
  (selectTier ws 1).map (mkTextTask .MEANING)
    ++ (selectTier ws 2).map (mkTextTask .SENTENCE)
    ++ (selectTier ws 3).filterMap (fun w => (gen w).map (mkMCQTask w))
    ++ (selectTier ws 4).map (mkTextTask .PARAGRAPH)

/-- Number of tasks of a given type in a batch. -/
def countType (b : List TaskItem) (ty : TaskType) : Nat :=
  b.countP (fun t => t.type == ty)

/-- Modelled from the spec: one user's daily batch, keyed by (user, date)
(§3, DailyTaskBatch). -/
structure DailyBatch where
  userId : Nat
  date : Nat
  tasks : List TaskItem
deriving DecidableEq, Repr

/-- Modelled from the spec: the persistent store visible to this core
(Word Store plus Batch Store, §6). -/
structure Store where
  words : List Word
  batches : List DailyBatch
deriving DecidableEq, Repr

/-- Modelled from the spec: `getBatch(userId, date)` of the Batch Store
interface (§6). -/
def getBatch (bs : List DailyBatch) (u d : Nat) : Option DailyBatch :=
  bs.find? (fun b => b.userId == u && b.date == d)

/-- Modelled from the spec: one scheduled generation run for (user, date)
(§4.1–§4.3 with the §4.3 idempotency rule): if a batch already exists for
the key, return the store unchanged; otherwise select from the user's
words, build the batch, and rebalance the user's non-selected words. -/
def generate (gen : Word → Option MCQData) (st : Store) (u d : Nat) : Store :=
  match getBatch st.batches u d with
  | some _ => st
  | none =>
    let userWords := st.words.filter (fun w => w.userId == u)
    let tasks := buildBatch gen userWords
    let sel := selectedIds userWords
    { words := st.words.map (fun w => if w.userId == u then rebalanceWord sel w else w),
      batches := ⟨u, d, tasks⟩ :: st.batches }

/-- Completion errors (spec §7 taxonomy, restricted to what the handler
raises). -/
inductive CompletionError
  | NotFoundError
  | InvalidStateError
deriving DecidableEq, Repr

/-- Modelled from the spec: which failure counter a FAIL on a task of the
given type increments (§4.4, step 4): the one matching the task's type;
MCQ failures increment none. -/
def bumpFailure (ty : TaskType) (fs : FailureStats) : FailureStats :=
  match ty with
  | .MEANING => { fs with meaning := fs.meaning + 1 }
  | .SENTENCE => { fs with sentence := fs.sentence + 1 }
  | .PARAGRAPH => { fs with paragraph := fs.paragraph + 1 }
  | .MCQ => fs

/-- Modelled from the spec: the word-side effect of a completion (§4.4,
steps 3–4).  PASS: priority 1, lastReviewedAt now; if the priority was 4,
masteryCount increments, and on reaching the threshold 3 the word becomes
MASTERED with lastPromotedAt set.  FAIL: priority 2, lastReviewedAt now,
and the failure counter matching the task type (none for MCQ) increments. -/
def applyResult (now : Nat) (ty : TaskType) (r : TaskResult) (w : Word) : Word :=
  match r with
  | .PASS =>
    let w1 := { w with priority := 1, lastReviewedAt := some now }
    if w.priority = 4 then
      let mc := w.masteryCount + 1
      if 3 ≤ mc then
        { w1 with masteryCount := mc, state := .MASTERED, lastPromotedAt := some now }
      else
        { w1 with masteryCount := mc }
    else w1
  | .FAIL =>
    { w with
      priority := 2
      lastReviewedAt := some now
      failureStats := bumpFailure ty w.failureStats }

/-- Modelled from the spec: the Task Completion Handler (§4.4): look the
task up, reject a missing task or an already-COMPLETED one, then atomically
mark the task COMPLETED with the given result and update its single word. -/
def completeTask (now : Nat) (tasks : List TaskItem) (words : List Word)
    (tid : Nat) (r : TaskResult) :
    Except CompletionError (List TaskItem × List Word) :=
  match tasks.find? (fun t => t.taskId == tid) with
  | none => .error .NotFoundError
  | some t =>
    if t.status = .COMPLETED then .error .InvalidStateError
    else
      match t.wordIds.head? with
      | none => .error .NotFoundError
      | some wid =>
        match words.find? (fun w => w.id == wid) with
        | none => .error .NotFoundError
        | some _ =>
          .ok (tasks.map (fun x => if x.taskId == tid then
                 { x with status := .COMPLETED, result := some r } else x),
               words.map (fun x => if x.id == wid then applyResult now t.type r x else x))

/-! Frontend logic, embedded from src/frontend/src/components/TaskDialog.tsx.
Machine strings are embedded as `List Char`. -/

/-- `userResponse.trim()` (JS `String.prototype.trim`): strip whitespace
from both ends. -/
def trimChars (s : List Char) : List Char :=
  (((s.dropWhile Char.isWhitespace).reverse).dropWhile Char.isWhitespace).reverse

/-- `s.split(/\s+/)` (TaskDialog.tsx line 66): split on maximal whitespace
runs; a leading run yields an initial empty piece and a trailing run a
final empty piece, as in JavaScript.  `acc` is the current piece reversed,
`inWs` records whether the previous character was whitespace. -/
def jsSplitWsAux (acc : List Char) (inWs : Bool) : List Char → List (List Char)
  | [] => [acc.reverse]
  | c :: cs =>
    if c.isWhitespace then
      if inWs then jsSplitWsAux acc true cs
      else acc.reverse :: jsSplitWsAux [] true cs
    else jsSplitWsAux (c :: acc) false cs

/-- `s.split(/\s+/)`, top level. -/
def jsSplitWs (s : List Char) : List (List Char) :=
  jsSplitWsAux [] false s

/-- The paragraph word count of TaskDialog.tsx line 66:
`userResponse.trim().split(/\s+/).filter(Boolean).length`. -/
def wordCountJS (s : List Char) : Nat :=
  ((jsSplitWs (trimChars s)).filter (fun t => !t.isEmpty)).length

/-- Written from the claim's words, for comparison with `wordCountJS`:
`countRunsAux inRun s` counts the maximal non-empty runs of non-whitespace
characters in `s`, where `inRun` records whether a run is already open
(and counted). -/
def countRunsAux (inRun : Bool) : List Char → Nat
  | [] => 0
  | c :: cs =>
    if c.isWhitespace then countRunsAux false cs
    else (if inRun then 0 else 1) + countRunsAux true cs

/-- Written from the claim's words: the number of maximal non-empty runs
produced by splitting a string on whitespace. -/
def countRuns (s : List Char) : Nat :=
  countRunsAux false s

/-- MCQ grading in TaskDialog.tsx `handleMCQSubmit` (lines 155–170):
`isCorrect = selectedOption === task.correctOption`, result PASS when
correct, FAIL otherwise. -/
def mcqResult (selectedOption correctOption : Nat) : TaskResult :=
  if selectedOption = correctOption then .PASS else .FAIL

/-- Outcome of the frontend submit handler. -/
inductive SubmitAction
  | RejectNoOption
  | MCQSubmit (result : TaskResult)
  | RejectShortParagraph
  | RejectEmpty
  | Evaluate (payload : List Char)
deriving DecidableEq, Repr

/-- TaskDialog.tsx `handleSubmit` (lines 109–153): MCQ goes to the local
grader (requiring a selected option); a PARAGRAPH with fewer than 50 words
is rejected before any evaluation call; an empty trimmed response is
rejected; otherwise the trimmed response is sent to the evaluation call. -/
def handleSubmit (ty : TaskType) (selectedOption : Option Nat)
    (correctOption : Option Nat) (userResponse : List Char) : SubmitAction :=
  match ty, selectedOption, correctOption with
  | .MCQ, none, _ => .RejectNoOption
  | .MCQ, some _, none => .RejectNoOption
  | .MCQ, some sel, some c => .MCQSubmit (mcqResult sel c)
  | ty, _, _ =>
    if ty = .PARAGRAPH ∧ wordCountJS userResponse < 50 then .RejectShortParagraph
    else if trimChars userResponse = [] then .RejectEmpty
    else .Evaluate (trimChars userResponse)

/-- TaskDialog.tsx `canSubmit` (lines 207–211): MCQ needs an option
selected; other types need a non-empty trimmed response, and PARAGRAPH
additionally at least 50 words. -/
def canSubmit (ty : TaskType) (selectedOption : Option Nat)
    (userResponse : List Char) : Bool :=
  match ty with
  | .MCQ => selectedOption.isSome
  | _ =>
    decide (0 < (trimChars userResponse).length) &&
      (decide (ty ≠ .PARAGRAPH) || decide (50 ≤ wordCountJS userResponse))

/-! Concrete sample data used by the witness theorems. -/

/-- All-zero failure statistics. -/
def fsZero : FailureStats := ⟨0, 0, 0⟩

/-- A fresh ACTIVE word with the given id and priority. -/
def sampleWord (i pr : Nat) : Word :=
  ⟨i, 0, pr, .ACTIVE, 0, fsZero, none, none⟩

/-- The spec's §8 scenario: 1 priority-1 word, 5 priority-2 words, no
priority-3 words, 2 priority-4 words. -/
def sampleWords : List Word :=
  [sampleWord 1 1, sampleWord 2 2, sampleWord 3 2, sampleWord 4 2,
   sampleWord 5 2, sampleWord 6 2, sampleWord 7 4, sampleWord 8 4]

/-- A well-formed generated MCQ. -/
def sampleMCQ : MCQData :=
  ⟨"q", ["a", "b", "c", "d"], 2, ["r1", "r2", "r3", "r4"], rfl, by decide, rfl⟩

/-- A generation capability that always succeeds. -/
def genAll : Word → Option MCQData := fun _ => some sampleMCQ

/-- A word list with a priority-1 and a priority-3 word. -/
def sampleWords9 : List Word := [sampleWord 1 1, sampleWord 2 3]

/-- A pending MEANING task over word 1. -/
def taskP : TaskItem := mkTextTask .MEANING (sampleWord 1 1)

/-- Task list after completing `taskP` with PASS. -/
def tsAfter : List TaskItem :=
  [{ taskP with status := .COMPLETED, result := some TaskResult.PASS }]

/-- Word list after completing `taskP` with PASS at time 9. -/
def wsAfter : List Word := [{ sampleWord 1 1 with lastReviewedAt := some 9 }]

/-- A pending SENTENCE task over word 2. -/
def taskS : TaskItem := mkTextTask .SENTENCE (sampleWord 2 2)

/-- Task list after completing `taskS` with FAIL. -/
def tsAfterF : List TaskItem :=
  [{ taskS with status := .COMPLETED, result := some TaskResult.FAIL }]

/-- Word list after completing `taskS` with FAIL at time 9. -/
def wsAfterF : List Word :=
  [⟨2, 0, 2, .ACTIVE, 0, ⟨0, 1, 0⟩, some 9, none⟩]

/-- An ACTIVE word at priority 4 with masteryCount 2. -/
def word4m2 : Word := ⟨7, 0, 4, .ACTIVE, 2, fsZero, none, none⟩

/-- A pending PARAGRAPH task over `word4m2`. -/
def taskG : TaskItem := mkTextTask .PARAGRAPH word4m2

/-- Task list after completing `taskG` with PASS. -/
def tsAfterM : List TaskItem :=
  [{ taskG with status := .COMPLETED, result := some TaskResult.PASS }]

/-- Word list after completing `taskG` with PASS at time 9: the word is
MASTERED. -/
def wsAfterM : List Word := [⟨7, 0, 1, .MASTERED, 3, fsZero, some 9, some 9⟩]

/-- An already-existing batch for user 0 on date 5. -/
def batch0 : DailyBatch := ⟨0, 5, []⟩

/-- A store that already holds `batch0`. -/
def st0 : Store := ⟨[sampleWord 1 1], [batch0]⟩

/-- A paragraph response of far fewer than 50 words. -/
def shortResp : List Char := "five words are not fifty".toList

end Reverba

namespace Reverba

/-! Helper lemmas. -/

/-- `find?` commutes with a map that leaves the search predicate unchanged. -/
theorem find?_map_eqkey {α : Type} (l : List α) (f : α → α) (p : α → Bool)
    (hp : ∀ a, p (f a) = p a) :
    (l.map f).find? p = (l.find? p).map f := by
  induction l with
  | nil => rfl
  | cons a l ih =>
    by_cases h : p a = true
    · simp [List.find?_cons, hp, h]
    · simp only [Bool.not_eq_true] at h
      simp [List.find?_cons, hp, h, ih]

/-- `applyResult` never changes the word id. -/
theorem applyResult_id (now : Nat) (ty : TaskType) (r : TaskResult) (w : Word) :
    (applyResult now ty r w).id = w.id := by
  cases r
  · unfold applyResult
    by_cases h4 : w.priority = 4
    · by_cases h3 : 3 ≤ w.masteryCount + 1 <;> simp [h4, h3]
    · simp [h4]
  · rfl

/-- Completing a task never changes its taskId. -/
theorem completion_update_taskId (tid : Nat) (r : TaskResult) (x : TaskItem) :
    ((if x.taskId == tid then { x with status := .COMPLETED, result := some r } else x) : TaskItem).taskId
      = x.taskId := by
  by_cases h : x.taskId == tid <;> simp [h]

/-- A status other than COMPLETED is PENDING. -/
theorem status_eq_pending (s : TaskStatus) (h : s ≠ .COMPLETED) : s = .PENDING := by
  cases s
  · rfl
  · exact absurd rfl h

/-- Characterization of a successful `completeTask` call. -/
theorem completeTask_ok {now : Nat} {ts : List TaskItem} {ws : List Word}
    {tid : Nat} {r : TaskResult} {ts' : List TaskItem} {ws' : List Word}
    (h : completeTask now ts ws tid r = .ok (ts', ws')) :
    ∃ t wid w,
      ts.find? (fun x => x.taskId == tid) = some t ∧
      t.status = TaskStatus.PENDING ∧
      t.wordIds.head? = some wid ∧
      ws.find? (fun x => x.id == wid) = some w ∧
      ts' = ts.map (fun x => if x.taskId == tid then
              { x with status := .COMPLETED, result := some r } else x) ∧
      ws' = ws.map (fun x => if x.id == wid then applyResult now t.type r x else x) := by
  unfold completeTask at h
  cases hf : ts.find? (fun x => x.taskId == tid) with
  | none => simp only [hf] at h; exact absurd h (by simp)
  | some t =>
    simp only [hf] at h
    by_cases hs : t.status = .COMPLETED
    · rw [if_pos hs] at h; exact absurd h (by simp)
    · rw [if_neg hs] at h
      cases hh : t.wordIds.head? with
      | none => simp only [hh] at h; exact absurd h (by simp)
      | some wid =>
        simp only [hh] at h
        cases hw : ws.find? (fun x => x.id == wid) with
        | none => simp only [hw] at h; exact absurd h (by simp)
        | some w =>
          simp only [hw] at h
          refine ⟨t, wid, w, rfl, status_eq_pending _ hs, hh, hw, ?_, ?_⟩
          · exact (congrArg (fun p => p.1) (Except.ok.inj h)).symm
          · exact (congrArg (fun p => p.2) (Except.ok.inj h)).symm

/-- The word a successful completion finds in the updated word list is
`applyResult` of the word it found in the old one. -/
theorem completeTask_ok_word {now : Nat} {ts : List TaskItem} {ws : List Word}
    {tid : Nat} {r : TaskResult} {ts' : List TaskItem} {ws' : List Word}
    {t : TaskItem} {wid : Nat} {w' : Word}
    (h : completeTask now ts ws tid r = .ok (ts', ws'))
    (ht : ts.find? (fun x => x.taskId == tid) = some t)
    (hh : t.wordIds.head? = some wid)
    (hw' : ws'.find? (fun x => x.id == wid) = some w') :
    ∃ w, ws.find? (fun x => x.id == wid) = some w ∧ w' = applyResult now t.type r w := by
  obtain ⟨t0, wid0, w0, ht0, _, hh0, hw0, _, hws'⟩ := completeTask_ok h
  have et : t0 = t := Option.some.inj (ht0.symm.trans ht)
  have ew : wid0 = wid := Option.some.inj ((et ▸ hh0).symm.trans hh)
  rw [← ew] at hw'
  rw [← et, ← ew]
  refine ⟨w0, hw0, ?_⟩
  have hkey : ∀ x : Word,
      ((fun y : Word => y.id == wid0)
        ((fun x : Word => if x.id == wid0 then applyResult now t0.type r x else x) x)) =
      ((fun y : Word => y.id == wid0) x) := by
    intro x
    by_cases hx : x.id == wid0
    · simp only [hx, if_pos rfl, if_true]
      simp only [applyResult_id]
      exact hx
    · simp [hx]
  have hfind : ws'.find? (fun y => y.id == wid0)
      = (ws.find? (fun y => y.id == wid0)).map
          (fun x => if x.id == wid0 then applyResult now t0.type r x else x) := by
    rw [hws']
    exact find?_map_eqkey ws _ _ hkey
  rw [hw0, hw'] at hfind
  have hw0id : (w0.id == wid0) = true := by
    have := List.find?_some hw0
    simpa using this
  have hid : w0.id = wid0 := by simpa using hw0id
  simp [hid] at hfind
  exact hfind

/-- A PASS always leaves the word at priority 1. -/
theorem applyResult_pass_priority (now : Nat) (ty : TaskType) (w : Word) :
    (applyResult now ty .PASS w).priority = 1 := by
  unfold applyResult
  by_cases h4 : w.priority = 4
  · by_cases h3 : 3 ≤ w.masteryCount + 1 <;> simp [h4, h3]
  · simp [h4]

/-- A word that is MASTERED is never selected by any tier of the Daily
Task Selector. -/
theorem mastered_not_selected (w : Word) (ws : List Word) (t : Nat)
    (h : w.state = WordState.MASTERED) : w ∉ selectTier ws t := by
  intro hmem
  have hb : w ∈ bucket ws t := List.mem_of_mem_take hmem
  have := List.of_mem_filter hb
  simp only [Bool.and_eq_true, beq_iff_eq] at this
  rw [h] at this
  exact absurd this.1 (by simp)

/-- Claim C2: after the rebalancing step, every ACTIVE word not selected
into today's batch has priority min (old priority + 1) 4, and every
selected word is left unchanged. -/
theorem c2_rebalance_bumps_unselected (sel : List Nat) (ws : List Word)
    (i : Nat) (h : i < ws.length) :
    ((ws.get ⟨i, h⟩).state = WordState.ACTIVE → (ws.get ⟨i, h⟩).id ∉ sel →
      ((rebalance sel ws).get ⟨i, by simpa [rebalance] using h⟩).priority
        = min ((ws.get ⟨i, h⟩).priority + 1) 4) ∧
    ((ws.get ⟨i, h⟩).id ∈ sel →
      (rebalance sel ws).get ⟨i, by simpa [rebalance] using h⟩ = ws.get ⟨i, h⟩) := by
  constructor
  · intro hA hS
    simp only [List.get_eq_getElem] at hA hS
    simp [rebalance, rebalanceWord, hA, hS]
  · intro hS
    simp only [List.get_eq_getElem] at hS
    simp [rebalance, rebalanceWord, hS]

/-- Witness for C2 at a concrete word list: word 4 (ACTIVE, priority 2,
not selected) is bumped to min 3 4, and word 5 (selected) is unchanged. -/
theorem c2_witness :
    ((sampleWord 4 2).state = WordState.ACTIVE ∧ (sampleWord 4 2).id ∉ ([5] : List Nat) ∧
      ((rebalance [5] [sampleWord 4 2, sampleWord 5 2]).get ⟨0, by decide⟩).priority
        = min ((sampleWord 4 2).priority + 1) 4) ∧
    ((sampleWord 5 2).id ∈ ([5] : List Nat) ∧
      (rebalance [5] [sampleWord 4 2, sampleWord 5 2]).get ⟨1, by decide⟩ = sampleWord 5 2) :=
  ⟨⟨rfl, by decide,
     (c2_rebalance_bumps_unselected [5] [sampleWord 4 2, sampleWord 5 2] 0 (by decide)).1
       rfl (by decide)⟩,
   ⟨by decide,
     (c2_rebalance_bumps_unselected [5] [sampleWord 4 2, sampleWord 5 2] 1 (by decide)).2
       (by decide)⟩⟩

/-- Claim C3: completing a PENDING task with result PASS sets the
referenced word's priority to 1, whatever its priority was before. -/
theorem c3_pass_sets_priority_one (now : Nat) (ts : List TaskItem) (ws : List Word)
    (tid : Nat) (ts' : List TaskItem) (ws' : List Word) (t : TaskItem) (wid : Nat) (w' : Word)
    (h : completeTask now ts ws tid .PASS = .ok (ts', ws'))
    (ht : ts.find? (fun x => x.taskId == tid) = some t)
    (hh : t.wordIds.head? = some wid)
    (hw' : ws'.find? (fun x => x.id == wid) = some w') :
    w'.priority = 1 := by
  obtain ⟨w, _, hw⟩ := completeTask_ok_word h ht hh hw'
  rw [hw]
  exact applyResult_pass_priority now t.type w

/-- Witness for C3: a concrete PASS completion leaves the word at
priority 1. -/
theorem c3_witness :
    completeTask 9 [taskP] [sampleWord 1 1] 1 .PASS = .ok (tsAfter, wsAfter) ∧
    List.find? (fun x => x.taskId == 1) [taskP] = some taskP ∧
    taskP.wordIds.head? = some 1 ∧
    List.find? (fun x => x.id == 1) wsAfter
      = some { sampleWord 1 1 with lastReviewedAt := some 9 } ∧
    ({ sampleWord 1 1 with lastReviewedAt := some 9 } : Word).priority = 1 :=
  ⟨rfl, by decide, by decide, by decide,
    c3_pass_sets_priority_one 9 [taskP] [sampleWord 1 1] 1 tsAfter wsAfter taskP 1
      { sampleWord 1 1 with lastReviewedAt := some 9 }
      rfl (by decide) (by decide) (by decide)⟩

/-- Claim C4: completing a PENDING task with result FAIL sets the word's
priority to 2 and increments exactly the failure-stat counter matching the
task's type; a FAIL on an MCQ task increments none. -/
theorem c4_fail_effects (now : Nat) (ts : List TaskItem) (ws : List Word)
    (tid : Nat) (ts' : List TaskItem) (ws' : List Word) (t : TaskItem)
    (wid : Nat) (w w' : Word)
    (h : completeTask now ts ws tid .FAIL = .ok (ts', ws'))
    (ht : ts.find? (fun x => x.taskId == tid) = some t)
    (hh : t.wordIds.head? = some wid)
    (hw : ws.find? (fun x => x.id == wid) = some w)
    (hw' : ws'.find? (fun x => x.id == wid) = some w') :
    w'.priority = 2 ∧
    (t.type = .MEANING → w'.failureStats
        = ⟨w.failureStats.meaning + 1, w.failureStats.sentence, w.failureStats.paragraph⟩) ∧
    (t.type = .SENTENCE → w'.failureStats
        = ⟨w.failureStats.meaning, w.failureStats.sentence + 1, w.failureStats.paragraph⟩) ∧
    (t.type = .PARAGRAPH → w'.failureStats
        = ⟨w.failureStats.meaning, w.failureStats.sentence, w.failureStats.paragraph + 1⟩) ∧
    (t.type = .MCQ → w'.failureStats = w.failureStats) := by
  obtain ⟨w0, hw0, hweq⟩ := completeTask_ok_word h ht hh hw'
  have e : w0 = w := Option.some.inj (hw0.symm.trans hw)
  rw [e] at hweq
  rw [hweq]
  refine ⟨rfl, ?_, ?_, ?_, ?_⟩ <;> intro hty <;> rw [hty] <;> rfl

/-- Witness for C4: a concrete FAIL completion of a SENTENCE task sets
priority 2 and bumps only the sentence counter. -/
theorem c4_witness :
    completeTask 9 [taskS] [sampleWord 2 2] 2 .FAIL = .ok (tsAfterF, wsAfterF) ∧
    List.find? (fun x => x.taskId == 2) [taskS] = some taskS ∧
    taskS.wordIds.head? = some 2 ∧
    List.find? (fun x => x.id == 2) [sampleWord 2 2] = some (sampleWord 2 2) ∧
    List.find? (fun x => x.id == 2) wsAfterF
      = some (⟨2, 0, 2, .ACTIVE, 0, ⟨0, 1, 0⟩, some 9, none⟩ : Word) ∧
    ((⟨2, 0, 2, .ACTIVE, 0, ⟨0, 1, 0⟩, some 9, none⟩ : Word).priority = 2 ∧
      (taskS.type = .SENTENCE →
        (⟨2, 0, 2, .ACTIVE, 0, ⟨0, 1, 0⟩, some 9, none⟩ : Word).failureStats
          = ⟨(sampleWord 2 2).failureStats.meaning,
             (sampleWord 2 2).failureStats.sentence + 1,
             (sampleWord 2 2).failureStats.paragraph⟩)) :=
  ⟨rfl, by decide, by decide, by decide, by decide,
    ⟨(c4_fail_effects 9 [taskS] [sampleWord 2 2] 2 tsAfterF wsAfterF taskS 2
        (sampleWord 2 2) ⟨2, 0, 2, .ACTIVE, 0, ⟨0, 1, 0⟩, some 9, none⟩
        rfl (by decide) (by decide) (by decide) (by decide)).1,
     (c4_fail_effects 9 [taskS] [sampleWord 2 2] 2 tsAfterF wsAfterF taskS 2
        (sampleWord 2 2) ⟨2, 0, 2, .ACTIVE, 0, ⟨0, 1, 0⟩, some 9, none⟩
        rfl (by decide) (by decide) (by decide) (by decide)).2.2.1⟩⟩

/-- Claim C5: a PASS on a word whose priority was 4 and whose masteryCount
thereby reaches 3 makes the word MASTERED with lastPromotedAt set, and a
MASTERED word is absent from every daily tier selection. -/
theorem c5_mastery_and_exclusion (now : Nat) (ts : List TaskItem) (ws : List Word)
    (tid : Nat) (ts' : List TaskItem) (ws' : List Word) (t : TaskItem)
    (wid : Nat) (w w' : Word)
    (h : completeTask now ts ws tid .PASS = .ok (ts', ws'))
    (ht : ts.find? (fun x => x.taskId == tid) = some t)
    (hh : t.wordIds.head? = some wid)
    (hw : ws.find? (fun x => x.id == wid) = some w)
    (hw' : ws'.find? (fun x => x.id == wid) = some w')
    (hp4 : w.priority = 4) (hm2 : w.masteryCount = 2) :
    w'.state = WordState.MASTERED ∧ w'.lastPromotedAt = some now ∧
    ∀ (ws2 : List Word) (t2 : Nat), w' ∉ selectTier ws2 t2 := by
  obtain ⟨w0, hw0, hweq⟩ := completeTask_ok_word h ht hh hw'
  have e : w0 = w := Option.some.inj (hw0.symm.trans hw)
  rw [e] at hweq
  have hstate : w'.state = WordState.MASTERED := by
    rw [hweq]; unfold applyResult; simp [hp4, hm2]
  refine ⟨hstate, ?_, ?_⟩
  · rw [hweq]; unfold applyResult; simp [hp4, hm2]
  · intro ws2 t2
    exact mastered_not_selected w' ws2 t2 hstate

/-- Witness for C5: a concrete priority-4 PASS with masteryCount 2 yields
a MASTERED word that its own word list never selects. -/
theorem c5_witness :
    completeTask 9 [taskG] [word4m2] 7 .PASS = .ok (tsAfterM, wsAfterM) ∧
    word4m2.priority = 4 ∧ word4m2.masteryCount = 2 ∧
    ((⟨7, 0, 1, .MASTERED, 3, fsZero, some 9, some 9⟩ : Word).state = WordState.MASTERED ∧
      (⟨7, 0, 1, .MASTERED, 3, fsZero, some 9, some 9⟩ : Word).lastPromotedAt = some 9 ∧
      (⟨7, 0, 1, .MASTERED, 3, fsZero, some 9, some 9⟩ : Word) ∉ selectTier wsAfterM 4) :=
  ⟨rfl, rfl, rfl,
    ⟨(c5_mastery_and_exclusion 9 [taskG] [word4m2] 7 tsAfterM wsAfterM taskG 7
        word4m2 ⟨7, 0, 1, .MASTERED, 3, fsZero, some 9, some 9⟩
        rfl (by decide) (by decide) (by decide) (by decide) rfl rfl).1,
     (c5_mastery_and_exclusion 9 [taskG] [word4m2] 7 tsAfterM wsAfterM taskG 7
        word4m2 ⟨7, 0, 1, .MASTERED, 3, fsZero, some 9, some 9⟩
        rfl (by decide) (by decide) (by decide) (by decide) rfl rfl).2.1,
     (c5_mastery_and_exclusion 9 [taskG] [word4m2] 7 tsAfterM wsAfterM taskG 7
        word4m2 ⟨7, 0, 1, .MASTERED, 3, fsZero, some 9, some 9⟩
        rfl (by decide) (by decide) (by decide) (by decide) rfl rfl).2.2 wsAfterM 4⟩⟩

/-- Claim C6: once a task has been completed, a second completion call on
the same taskId fails with InvalidStateError instead of overwriting. -/
theorem c6_second_completion_invalid (now now2 : Nat) (ts : List TaskItem)
    (ws : List Word) (tid : Nat) (r r2 : TaskResult)
    (ts' : List TaskItem) (ws' : List Word)
    (h : completeTask now ts ws tid r = .ok (ts', ws')) :
    completeTask now2 ts' ws' tid r2 = .error .InvalidStateError := by
  obtain ⟨t, wid, w, ht, _, _, _, hts', _⟩ := completeTask_ok h
  have hkey : ∀ x : TaskItem,
      ((fun y : TaskItem => y.taskId == tid)
        ((fun x : TaskItem => if x.taskId == tid then
            { x with status := .COMPLETED, result := some r } else x) x)) =
      ((fun y : TaskItem => y.taskId == tid) x) := by
    intro x
    by_cases hx : x.taskId == tid <;> simp [hx]
  have hfind : ts'.find? (fun y => y.taskId == tid)
      = some { t with status := .COMPLETED, result := some r } := by
    rw [hts', find?_map_eqkey ts _ _ hkey, ht]
    have htid : t.taskId = tid := by simpa using List.find?_some ht
    simp [htid]
  unfold completeTask
  rw [hfind]
  rfl

/-- Witness for C6: completing the same concrete task twice fails the
second time with InvalidStateError. -/
theorem c6_witness :
    completeTask 9 [taskP] [sampleWord 1 1] 1 .PASS = .ok (tsAfter, wsAfter) ∧
    completeTask 10 tsAfter wsAfter 1 .FAIL = .error .InvalidStateError :=
  ⟨rfl, c6_second_completion_invalid 9 10 [taskP] [sampleWord 1 1] 1 .PASS .FAIL
    tsAfter wsAfter rfl⟩

/-- Claim C7: batch generation is idempotent per (user, date): an existing
batch makes the run a no-op, so two runs on the same key yield the same
store and hence the identical batch. -/
theorem c7_generate_idempotent (gen : Word → Option MCQData) (st : Store) (u d : Nat) :
    (∀ b, getBatch st.batches u d = some b → generate gen st u d = st) ∧
    generate gen (generate gen st u d) u d = generate gen st u d := by
  have hexists : ∀ st2 : Store,
      ∀ b, getBatch st2.batches u d = some b → generate gen st2 u d = st2 := by
    intro st2 b hb
    unfold generate
    rw [hb]
  refine ⟨hexists st, ?_⟩
  cases hg : getBatch st.batches u d with
  | some b =>
    have h1 : generate gen st u d = st := hexists st b hg
    rw [h1]
    exact h1
  | none =>
    have hfound : getBatch (generate gen st u d).batches u d
        = some ⟨u, d, buildBatch gen (st.words.filter (fun w => w.userId == u))⟩ := by
      unfold generate
      rw [hg]
      simp [getBatch]
    exact hexists _ _ hfound

/-- Witness for C7 on a store that already has a batch for (0, 5). -/
theorem c7_witness :
    getBatch st0.batches 0 5 = some batch0 ∧
    generate genAll st0 0 5 = st0 ∧
    generate genAll (generate genAll st0 0 5) 0 5 = generate genAll st0 0 5 :=
  ⟨rfl, (c7_generate_idempotent genAll st0 0 5).1 batch0 rfl,
    (c7_generate_idempotent genAll st0 0 5).2⟩

/-- A tier's selection has size min (required, available). -/
theorem selectTier_length (ws : List Word) (t : Nat) :
    (selectTier ws t).length = min (requiredCount t) (bucket ws t).length :=
  List.length_take _ _

/-- A selected word lies in its tier's bucket. -/
theorem mem_selectTier (w : Word) (ws : List Word) (t : Nat)
    (h : w ∈ selectTier ws t) : w ∈ bucket ws t :=
  List.mem_of_mem_take h

/-- Counting a task type over a text-task segment. -/
theorem countP_textseg (ty target : TaskType) (l : List Word) :
    ((l.map (mkTextTask ty)).countP (fun x => x.type == target))
      = if ty = target then l.length else 0 := by
  induction l with
  | nil => simp
  | cons a l ih =>
    by_cases h : ty = target <;> simp [List.countP_cons, mkTextTask, h, ih]

/-- Counting a task type over the MCQ segment. -/
theorem countP_mcqseg (gen : Word → Option MCQData) (target : TaskType) (l : List Word) :
    ((l.filterMap (fun w => (gen w).map (mkMCQTask w))).countP (fun x => x.type == target))
      = if TaskType.MCQ = target
        then (l.filterMap (fun w => (gen w).map (mkMCQTask w))).length else 0 := by
  induction l with
  | nil => simp
  | cons a l ih =>
    cases hg : gen a with
    | none => simp [List.filterMap_cons, hg, ih]
    | some dd =>
      by_cases h : TaskType.MCQ = target <;>
        simp [List.filterMap_cons, hg, List.countP_cons, mkMCQTask, h, ih]

/-- When generation always succeeds, the MCQ segment is one task per word. -/
theorem length_mcqseg (gen : Word → Option MCQData) (l : List Word)
    (hgen : ∀ w, (gen w).isSome = true) :
    (l.filterMap (fun w => (gen w).map (mkMCQTask w))).length = l.length := by
  induction l with
  | nil => rfl
  | cons a l ih =>
    obtain ⟨dd, hdd⟩ := Option.isSome_iff_exists.mp (hgen a)
    simp [List.filterMap_cons, hdd, ih]

/-- Claim C1: when MCQ generation succeeds for every word, the batch holds,
per tier, exactly min (required, available ACTIVE words of that priority)
tasks of the tier's type; it holds at most 8 tasks; and every task's word
comes from its own tier's bucket. -/
theorem c1_batch_tier_sizes (gen : Word → Option MCQData) (ws : List Word)
    (hgen : ∀ w, (gen w).isSome = true) :
    countType (buildBatch gen ws) .MEANING = min (requiredCount 1) (bucket ws 1).length ∧
    countType (buildBatch gen ws) .SENTENCE = min (requiredCount 2) (bucket ws 2).length ∧
    countType (buildBatch gen ws) .MCQ = min (requiredCount 3) (bucket ws 3).length ∧
    countType (buildBatch gen ws) .PARAGRAPH = min (requiredCount 4) (bucket ws 4).length ∧
    (buildBatch gen ws).length ≤ 8 ∧
    (∀ task ∈ buildBatch gen ws, ∀ wid ∈ task.wordIds,
      wid ∈ (bucket ws (tierOf task.type)).map (fun w => w.id)) := by
  refine ⟨?_, ?_, ?_, ?_, ?_, ?_⟩
  · rw [countType, buildBatch]
    rw [List.countP_append, List.countP_append, List.countP_append,
      countP_textseg, countP_textseg, countP_textseg, countP_mcqseg,
      ← selectTier_length]
    simp
  · rw [countType, buildBatch]
    rw [List.countP_append, List.countP_append, List.countP_append,
      countP_textseg, countP_textseg, countP_textseg, countP_mcqseg,
      ← selectTier_length]
    simp
  · rw [countType, buildBatch]
    rw [List.countP_append, List.countP_append, List.countP_append,
      countP_textseg, countP_textseg, countP_textseg, countP_mcqseg,
      length_mcqseg gen _ hgen, ← selectTier_length]
    simp
  · rw [countType, buildBatch]
    rw [List.countP_append, List.countP_append, List.countP_append,
      countP_textseg, countP_textseg, countP_textseg, countP_mcqseg,
      ← selectTier_length]
    simp
  · have h1 : (selectTier ws 1).length ≤ 1 := by
      rw [selectTier_length]; exact min_le_left _ _
    have h2 : (selectTier ws 2).length ≤ 2 := by
      rw [selectTier_length]; exact min_le_left _ _
    have h3 : ((selectTier ws 3).filterMap (fun w => (gen w).map (mkMCQTask w))).length ≤ 3 := by
      calc ((selectTier ws 3).filterMap (fun w => (gen w).map (mkMCQTask w))).length
          ≤ (selectTier ws 3).length := List.length_filterMap_le _ _
        _ ≤ 3 := by rw [selectTier_length]; exact min_le_left _ _
    have h4 : (selectTier ws 4).length ≤ 2 := by
      rw [selectTier_length]; exact min_le_left _ _
    rw [buildBatch]
    simp only [List.length_append, List.length_map]
    omega
  · intro task htask wid hwid
    rw [buildBatch] at htask
    rcases List.mem_append.mp htask with h123 | h4
    · rcases List.mem_append.mp h123 with h12 | h3
      · rcases List.mem_append.mp h12 with h1 | h2
        · obtain ⟨w, hwsel, hweq⟩ := List.mem_map.mp h1
          rw [← hweq] at hwid ⊢
          simp only [mkTextTask, tierOf, List.mem_singleton] at hwid ⊢
          rw [hwid]
          exact List.mem_map.mpr ⟨w, mem_selectTier w ws 1 hwsel, rfl⟩
        · obtain ⟨w, hwsel, hweq⟩ := List.mem_map.mp h2
          rw [← hweq] at hwid ⊢
          simp only [mkTextTask, tierOf, List.mem_singleton] at hwid ⊢
          rw [hwid]
          exact List.mem_map.mpr ⟨w, mem_selectTier w ws 2 hwsel, rfl⟩
      · obtain ⟨w, hwsel, hsome⟩ := List.mem_filterMap.mp h3
        obtain ⟨dd, _, hweq⟩ := Option.map_eq_some'.mp hsome
        rw [← hweq] at hwid ⊢
        simp only [mkMCQTask, tierOf, List.mem_singleton] at hwid ⊢
        rw [hwid]
        exact List.mem_map.mpr ⟨w, mem_selectTier w ws 3 hwsel, rfl⟩
    · obtain ⟨w, hwsel, hweq⟩ := List.mem_map.mp h4
      rw [← hweq] at hwid ⊢
      simp only [mkTextTask, tierOf, List.mem_singleton] at hwid ⊢
      rw [hwid]
      exact List.mem_map.mpr ⟨w, mem_selectTier w ws 4 hwsel, rfl⟩

/-- Witness for C1 on the spec's §8 scenario word list (1, 5, 0, 2 words
in tiers 1..4): tier sizes 1, 2, 0, 2 and at most 8 tasks. -/
theorem c1_witness :
    (∀ w, (genAll w).isSome = true) ∧
    (countType (buildBatch genAll sampleWords) .MEANING
        = min (requiredCount 1) (bucket sampleWords 1).length ∧
      countType (buildBatch genAll sampleWords) .SENTENCE
        = min (requiredCount 2) (bucket sampleWords 2).length ∧
      countType (buildBatch genAll sampleWords) .MCQ
        = min (requiredCount 3) (bucket sampleWords 3).length ∧
      countType (buildBatch genAll sampleWords) .PARAGRAPH
        = min (requiredCount 4) (bucket sampleWords 4).length ∧
      (buildBatch genAll sampleWords).length ≤ 8) :=
  ⟨fun _ => rfl,
    ⟨(c1_batch_tier_sizes genAll sampleWords (fun _ => rfl)).1,
     (c1_batch_tier_sizes genAll sampleWords (fun _ => rfl)).2.1,
     (c1_batch_tier_sizes genAll sampleWords (fun _ => rfl)).2.2.1,
     (c1_batch_tier_sizes genAll sampleWords (fun _ => rfl)).2.2.2.1,
     (c1_batch_tier_sizes genAll sampleWords (fun _ => rfl)).2.2.2.2.1⟩⟩

/-- Claim C9: every generated TaskItem satisfies the shape invariant:
non-MCQ tasks carry a chat id and null MCQ fields; MCQ tasks carry a
question, exactly 4 options, a correctOption in 1..4, exactly 4 option
reasons, and no chat id. -/
theorem c9_task_shape (gen : Word → Option MCQData) (ws : List Word)
    (task : TaskItem) (h : task ∈ buildBatch gen ws) :
    (task.type ≠ .MCQ →
      task.chatId ≠ none ∧ task.question = none ∧ task.options = none ∧
      task.correctOption = none ∧ task.optionReasons = none) ∧
    (task.type = .MCQ →
      task.chatId = none ∧ task.question ≠ none ∧
      task.options.map List.length = some 4 ∧
      task.correctOption ≠ none ∧
      1 ≤ task.correctOption.getD 0 ∧ task.correctOption.getD 0 ≤ 4 ∧
      task.optionReasons.map List.length = some 4) := by
  rw [buildBatch] at h
  have htext : ∀ (ty : TaskType) (w : Word), ty ≠ .MCQ →
      ((mkTextTask ty w).type ≠ .MCQ →
        (mkTextTask ty w).chatId ≠ none ∧ (mkTextTask ty w).question = none ∧
        (mkTextTask ty w).options = none ∧ (mkTextTask ty w).correctOption = none ∧
        (mkTextTask ty w).optionReasons = none) ∧
      ((mkTextTask ty w).type = .MCQ →
        (mkTextTask ty w).chatId = none ∧ (mkTextTask ty w).question ≠ none ∧
        (mkTextTask ty w).options.map List.length = some 4 ∧
        (mkTextTask ty w).correctOption ≠ none ∧
        1 ≤ (mkTextTask ty w).correctOption.getD 0 ∧
        (mkTextTask ty w).correctOption.getD 0 ≤ 4 ∧
        (mkTextTask ty w).optionReasons.map List.length = some 4) := by
    intro ty w hne
    constructor
    · intro _
      simp [mkTextTask]
    · intro hmcq
      simp only [mkTextTask] at hmcq
      exact absurd hmcq hne
  rcases List.mem_append.mp h with h123 | h4
  · rcases List.mem_append.mp h123 with h12 | h3
    · rcases List.mem_append.mp h12 with h1 | h2
      · obtain ⟨w, _, hweq⟩ := List.mem_map.mp h1
        rw [← hweq]
        exact htext .MEANING w (by simp)
      · obtain ⟨w, _, hweq⟩ := List.mem_map.mp h2
        rw [← hweq]
        exact htext .SENTENCE w (by simp)
    · obtain ⟨w, _, hsome⟩ := List.mem_filterMap.mp h3
      obtain ⟨dd, _, hweq⟩ := Option.map_eq_some'.mp hsome
      rw [← hweq]
      constructor
      · intro hne
        exact absurd rfl hne
      · intro _
        refine ⟨rfl, by simp [mkMCQTask], ?_, by simp [mkMCQTask], ?_, ?_, ?_⟩
        · simp [mkMCQTask, dd.options_len]
        · simp [mkMCQTask, dd.correct_range.1]
        · simp [mkMCQTask, dd.correct_range.2]
        · simp [mkMCQTask, dd.reasons_len]
  · obtain ⟨w, _, hweq⟩ := List.mem_map.mp h4
    rw [← hweq]
    exact htext .PARAGRAPH w (by simp)

/-- Witness for C9: a concrete MEANING task and a concrete MCQ task from
a generated batch satisfy the shape invariant. -/
theorem c9_witness :
    (taskP ∈ buildBatch genAll sampleWords9 ∧
      (taskP.chatId ≠ none ∧ taskP.question = none ∧ taskP.options = none ∧
        taskP.correctOption = none ∧ taskP.optionReasons = none)) ∧
    (mkMCQTask (sampleWord 2 3) sampleMCQ ∈ buildBatch genAll sampleWords9 ∧
      ((mkMCQTask (sampleWord 2 3) sampleMCQ).chatId = none ∧
        (mkMCQTask (sampleWord 2 3) sampleMCQ).question ≠ none ∧
        (mkMCQTask (sampleWord 2 3) sampleMCQ).options.map List.length = some 4 ∧
        (mkMCQTask (sampleWord 2 3) sampleMCQ).correctOption ≠ none ∧
        1 ≤ (mkMCQTask (sampleWord 2 3) sampleMCQ).correctOption.getD 0 ∧
        (mkMCQTask (sampleWord 2 3) sampleMCQ).correctOption.getD 0 ≤ 4 ∧
        (mkMCQTask (sampleWord 2 3) sampleMCQ).optionReasons.map List.length = some 4)) := by
  have hm1 : taskP ∈ buildBatch genAll sampleWords9 := by
    rw [show buildBatch genAll sampleWords9
        = [taskP, mkMCQTask (sampleWord 2 3) sampleMCQ] from rfl]
    exact List.mem_cons_self _ _
  have hm2 : mkMCQTask (sampleWord 2 3) sampleMCQ ∈ buildBatch genAll sampleWords9 := by
    rw [show buildBatch genAll sampleWords9
        = [taskP, mkMCQTask (sampleWord 2 3) sampleMCQ] from rfl]
    exact List.mem_cons_of_mem _ (List.mem_cons_self _ _)
  exact ⟨⟨hm1, (c9_task_shape genAll sampleWords9 taskP hm1).1 (by simp [taskP, mkTextTask])⟩,
    ⟨hm2, (c9_task_shape genAll sampleWords9 (mkMCQTask (sampleWord 2 3) sampleMCQ) hm2).2 rfl⟩⟩

/-- The task a successful completion finds in the updated task list is the
found task marked COMPLETED with the given result. -/
theorem find?_after_completion {r : TaskResult} {tid : Nat}
    {ts ts' : List TaskItem} {t : TaskItem}
    (hts' : ts' = ts.map (fun x => if x.taskId == tid then
        { x with status := .COMPLETED, result := some r } else x))
    (ht : ts.find? (fun x => x.taskId == tid) = some t) :
    ts'.find? (fun x => x.taskId == tid)
      = some { t with status := .COMPLETED, result := some r } := by
  have hkey : ∀ x : TaskItem,
      ((fun y : TaskItem => y.taskId == tid)
        ((fun x : TaskItem => if x.taskId == tid then
            { x with status := .COMPLETED, result := some r } else x) x)) =
      ((fun y : TaskItem => y.taskId == tid) x) := by
    intro x
    by_cases hx : x.taskId == tid <;> simp [hx]
  rw [hts', find?_map_eqkey ts _ _ hkey, ht]
  have htid : t.taskId = tid := by simpa using List.find?_some ht
  simp [htid]

/-- Claim C8: MCQ grading happens in the frontend — PASS exactly when the
selected option equals correctOption — while the completion handler stores
the given PASS/FAIL result verbatim without recomputing it. -/
theorem c8_mcq_delegation :
    (∀ sel c : Nat, mcqResult sel c = TaskResult.PASS ↔ sel = c) ∧
    (∀ (now tid : Nat) (ts ts' : List TaskItem) (ws ws' : List Word)
       (r : TaskResult) (t' : TaskItem),
      completeTask now ts ws tid r = .ok (ts', ws') →
      ts'.find? (fun x => x.taskId == tid) = some t' →
      t'.status = .COMPLETED ∧ t'.result = some r) := by
  constructor
  · intro sel c
    unfold mcqResult
    by_cases h : sel = c <;> simp [h]
  · intro now tid ts ts' ws ws' r t' h hf
    obtain ⟨t, wid, w, ht, _, _, _, hts', _⟩ := completeTask_ok h
    have := find?_after_completion hts' ht
    rw [hf] at this
    rw [Option.some.inj this]
    exact ⟨rfl, rfl⟩

/-- Witness for C8: grading 2 vs 2 gives PASS, 1 vs 2 gives non-PASS,
and a concrete completion stores the passed-in result. -/
theorem c8_witness :
    (mcqResult 2 2 = TaskResult.PASS ↔ 2 = 2) ∧
    (mcqResult 1 2 = TaskResult.PASS ↔ (1 : Nat) = 2) ∧
    completeTask 9 [taskP] [sampleWord 1 1] 1 .PASS = .ok (tsAfter, wsAfter) ∧
    List.find? (fun x => x.taskId == 1) tsAfter
      = some { taskP with status := .COMPLETED, result := some TaskResult.PASS } ∧
    (({ taskP with status := .COMPLETED, result := some TaskResult.PASS } : TaskItem).status
        = .COMPLETED ∧
      ({ taskP with status := .COMPLETED, result := some TaskResult.PASS } : TaskItem).result
        = some TaskResult.PASS) :=
  ⟨c8_mcq_delegation.1 2 2, c8_mcq_delegation.1 1 2, rfl, by decide,
    c8_mcq_delegation.2 9 1 [taskP] tsAfter [sampleWord 1 1] wsAfter .PASS
      { taskP with status := .COMPLETED, result := some TaskResult.PASS }
      rfl (by decide)⟩

/-- The non-empty pieces of the JavaScript whitespace split are exactly
the maximal non-empty runs of non-whitespace characters. -/
theorem filter_splitWs_count (l : List Char) :
    ∀ (acc : List Char) (b : Bool), (b = true → acc = []) →
      ((jsSplitWsAux acc b l).filter (fun t => !t.isEmpty)).length
        = (if acc.isEmpty then 0 else 1) + countRunsAux (!acc.isEmpty) l := by
  induction l with
  | nil =>
    intro acc b hb
    cases acc <;> simp [jsSplitWsAux, countRunsAux]
  | cons c cs ih =>
    intro acc b hb
    by_cases hws : c.isWhitespace = true
    · cases b with
      | true =>
        have ha : acc = [] := hb rfl
        subst ha
        rw [show jsSplitWsAux [] true (c :: cs) = jsSplitWsAux [] true cs by
          simp [jsSplitWsAux, hws]]
        rw [ih [] true (fun _ => rfl)]
        simp [countRunsAux, hws]
      | false =>
        rw [show jsSplitWsAux acc false (c :: cs)
            = acc.reverse :: jsSplitWsAux [] true cs by simp [jsSplitWsAux, hws]]
        rw [List.filter_cons]
        by_cases ha : acc.isEmpty = true
        · have haa : acc = [] := List.isEmpty_iff.mp ha
          subst haa
          rw [if_neg (by simp)]
          rw [ih [] true (fun _ => rfl)]
          simp [countRunsAux, hws]
        · have hne : acc ≠ [] := fun hh => ha (by simp [hh])
          have hrev : (!acc.reverse.isEmpty) = true := by
            simpa using hne
          rw [if_pos hrev]
          rw [List.length_cons, ih [] true (fun _ => rfl)]
          simp [ha, countRunsAux, hws]
          omega
    · rw [show jsSplitWsAux acc b (c :: cs) = jsSplitWsAux (c :: acc) false cs by
        simp [jsSplitWsAux, hws]]
      rw [ih (c :: acc) false (fun hh => nomatch hh)]
      by_cases ha : acc.isEmpty = true <;>
        simp [ha, countRunsAux, hws]

/-- Claim C10: the frontend paragraph word count equals the number of
maximal non-empty whitespace-separated runs of the trimmed response, and a
PARAGRAPH submission with fewer than 50 words is blocked: it never reaches
the evaluation call, and the submit button is disabled. -/
theorem c10_paragraph_word_gate :
    (∀ s : List Char, wordCountJS s = countRuns (trimChars s)) ∧
    (∀ (sel c : Option Nat) (s p : List Char),
      wordCountJS s < 50 → handleSubmit .PARAGRAPH sel c s ≠ .Evaluate p) ∧
    (∀ (sel : Option Nat) (s : List Char),
      wordCountJS s < 50 → canSubmit .PARAGRAPH sel s = false) := by
  refine ⟨?_, ?_, ?_⟩
  · intro s
    unfold wordCountJS jsSplitWs countRuns
    rw [filter_splitWs_count (trimChars s) [] false (fun _ => rfl)]
    simp
  · intro sel c s p hlt
    unfold handleSubmit
    simp [hlt]
  · intro sel s hlt
    have hn : ¬ (50 ≤ wordCountJS s) := Nat.not_le.mpr hlt
    unfold canSubmit
    simp [hn]

/-- Witness for C10 on a 5-word response: the count matches the run count,
the submit handler rejects it before evaluation, and the button is
disabled. -/
theorem c10_witness :
    wordCountJS shortResp < 50 ∧
    wordCountJS shortResp = countRuns (trimChars shortResp) ∧
    handleSubmit .PARAGRAPH none none shortResp ≠ .Evaluate (trimChars shortResp) ∧
    canSubmit .PARAGRAPH none shortResp = false :=
  ⟨by decide, c10_paragraph_word_gate.1 shortResp,
    c10_paragraph_word_gate.2.1 none none shortResp (trimChars shortResp) (by decide),
    c10_paragraph_word_gate.2.2 none shortResp (by decide)⟩

end Reverba
